import Mathlib

/-!
Shallow embedding of the ThunderBorg motor-controller driver
(`src/thunder_borg.rs` of mcobzarenco/vrum) and proofs about it.

Modelling conventions:
* A wire byte (`u8`) is a `Fin 256`.
* A response frame is the fixed 6-byte buffer filled by a bus read
  (`I2C_MAX_LEN = 6`), modelled as a structure with six byte fields.
* A read transport behaviour is a function `Nat → Frame` giving the frame
  returned by the k-th read of the exchange loop; a write transport
  behaviour is a predicate on the frame bytes saying whether the write
  succeeds.
* `f32` values are modelled by the inductive `F32`: NaN, the two
  infinities, and finite values as exact rationals (+0.0 and -0.0 are
  identified, which is faithful here because every operation the driver
  performs — comparisons, `abs`, multiplication, casts — agrees on the
  two zeros).  Multiplication is modelled exactly; every product the
  claims evaluate (|p| * 255 at the concrete points used) is exactly
  representable in `f32`, so exactness is faithful there.
* Rust's saturating `as u8` cast from `f32` is `f32_as_u8`; the failed
  `assert!` in `motor_power_to_byte` (a process abort) is modelled by
  returning `none`, and the process abort in `Controller::new` by the
  `InitResult.panicked` outcome.
-/

namespace Vrum

/-- A single wire byte (`u8`). -/
def Byte : Type := Fin 256

instance : DecidableEq Byte := instDecidableEqFin 256

instance (n : Nat) : OfNat Byte n := ⟨⟨n % 256, Nat.mod_lt n (by norm_num)⟩⟩

/-- The closed command set of `enum Command` in `thunder_borg.rs`. -/
inductive Command
  | SetLed
  | GetLed
  | SetMotorAForward
  | SetMotorAReverse
  | GetMotorA
  | SetMotorBForward
  | SetMotorBReverse
  | GetMotorB
  | AllOff
  | GetDriveFaultFlagA
  | GetDriveFaultFlagB
  | SetMotorsForward
  | SetMotorsReverse
  | GetBatteryVoltage
  | GetId
deriving DecidableEq, Fintype

/-- `Command::to_wire`: the fixed one-byte opcode of each command. -/
def Command.to_wire : Command → Byte
  | Command.SetLed => 1
  | Command.GetLed => 2
  | Command.SetMotorAForward => 8
  | Command.SetMotorAReverse => 9
  | Command.GetMotorA => 10
  | Command.SetMotorBForward => 11
  | Command.SetMotorBReverse => 12
  | Command.GetMotorB => 13
  | Command.AllOff => 14
  | Command.GetDriveFaultFlagA => 15
  | Command.GetDriveFaultFlagB => 16
  | Command.SetMotorsForward => 17
  | Command.SetMotorsReverse => 18
  | Command.GetBatteryVoltage => 21
  | Command.GetId => 0x99

/-- `const I2C_VALUE_ON: u8 = 1`. -/
def I2C_VALUE_ON : Byte := 1

/-- `const I2C_VALUE_OFF: u8 = 0`. -/
def I2C_VALUE_OFF : Byte := 0

/-- `const I2C_COMMAND_NUM_ATTEMPTS: usize = 3`. -/
def I2C_COMMAND_NUM_ATTEMPTS : Nat := 3

/-- `const I2C_MAX_LEN: usize = 6`. -/
def I2C_MAX_LEN : Nat := 6

/-- `const THUNDERBORG_ID: u8 = 0x15`. -/
def THUNDERBORG_ID : Byte := 0x15

/-- `const COMMAND_ANALOG_MAX: f32 = 0x3FF as f32` (exact value). -/
def COMMAND_ANALOG_MAX : ℚ := 0x3FF

/-- `const VOLTAGE_PIN_MAX: f32 = 36.3` (idealized as the exact decimal). -/
def VOLTAGE_PIN_MAX : ℚ := 36.3

/-- `const VOLTAGE_PIN_CORRECTION: f32 = 0.0`. -/
def VOLTAGE_PIN_CORRECTION : ℚ := 0

/-- The fixed 6-byte response buffer (`[0u8; I2C_MAX_LEN]` after a read). -/
structure Frame where
  b0 : Byte
  b1 : Byte
  b2 : Byte
  b3 : Byte
  b4 : Byte
  b5 : Byte
deriving DecidableEq

/-- `enum ControllerError` — the one typed error of the driver,
`CommandError { command }`, produced when the echo never matches. -/
inductive ControllerError
  | CommandError (command : Command)
deriving DecidableEq

/-- A read-transport behaviour: the frame returned by the k-th
write/read cycle of the exchange loop. -/
def Transport : Type := Nat → Frame

/-- The body of the retry loop of `Controller::command_with_response`:
`attempt` is the remaining attempt budget, `done` the number of
write/read cycles already performed.  Each iteration writes the opcode
byte, reads one 6-byte frame, and returns it when byte 0 echoes the
opcode; otherwise it decrements the budget and retries.  The second
component of the result is the total number of write/read cycles
performed. -/
def Controller.command_with_response_go (cmd : Command) (t : Transport) :
    Nat → Nat → Except ControllerError Frame × Nat
  | 0, done => (Except.error (ControllerError.CommandError cmd), done)
  | attempt + 1, done =>
    let response := t done
    if response.b0 ≠ cmd.to_wire then
      Controller.command_with_response_go cmd t attempt (done + 1)
    else
      (Except.ok response, done + 1)

/-- `Controller::command_with_response`: run the retry loop with the
fixed attempt budget of 3. -/
def Controller.command_with_response (cmd : Command) (t : Transport) :
    Except ControllerError Frame × Nat :=
  Controller.command_with_response_go cmd t I2C_COMMAND_NUM_ATTEMPTS 0

/-- `Controller::get_drive_fault_a`: exchange `GetDriveFaultFlagA`, fault
is `response[1] != I2C_VALUE_OFF`. -/
def Controller.get_drive_fault_a (t : Transport) : Except ControllerError Bool :=
  match (Controller.command_with_response Command.GetDriveFaultFlagA t).1 with
  | Except.error e => Except.error e
  | Except.ok response => Except.ok (decide (response.b1 ≠ I2C_VALUE_OFF))

/-- `Controller::get_drive_fault_b`: exchange `GetDriveFaultFlagB`, fault
is `response[1] != I2C_VALUE_OFF`. -/
def Controller.get_drive_fault_b (t : Transport) : Except ControllerError Bool :=
  match (Controller.command_with_response Command.GetDriveFaultFlagB t).1 with
  | Except.error e => Except.error e
  | Except.ok response => Except.ok (decide (response.b1 ≠ I2C_VALUE_OFF))

/-- `Controller::get_battery_voltage`: exchange `GetBatteryVoltage`,
reconstruct `((bytes[1] as u16) << 8) + bytes[2]` (no overflow: both
bytes are < 256, so the sum is < 2^16) and scale.  The `f32` arithmetic
of the scaling is idealized as exact rational arithmetic. -/
def Controller.get_battery_voltage (t : Transport) : Except ControllerError ℚ :=
  match (Controller.command_with_response Command.GetBatteryVoltage t).1 with
  | Except.error e => Except.error e
  | Except.ok voltage_bytes =>
    let raw_voltage : Nat := (voltage_bytes.b1.val <<< 8) + voltage_bytes.b2.val
    Except.ok ((raw_voltage : ℚ) / COMMAND_ANALOG_MAX * VOLTAGE_PIN_MAX +
      VOLTAGE_PIN_CORRECTION)

/-- The possible outcomes of `Controller::new`: a usable controller, a
typed error propagated from the `GetId` exchange, or the process abort
performed by `panic!("Found chip with different id")`. -/
inductive InitResult
  | ok
  | err (e : ControllerError)
  | panicked
deriving DecidableEq

/-- Whether an initialization outcome is a typed error value (as opposed
to a usable controller or a process abort). -/
def InitResult.isTypedErr : InitResult → Bool
  | InitResult.err _ => true
  | _ => false

/-- `Controller::new`: exchange `GetId`; if `response[1]` equals
`THUNDERBORG_ID` the controller is returned, otherwise the process is
aborted by `panic!`.  (The opening of the bus device itself is outside
the model; the transport is given.) -/
def Controller.new (t : Transport) : InitResult :=
  match (Controller.command_with_response Command.GetId t).1 with
  | Except.error e => InitResult.err e
  | Except.ok response =>
    if response.b1 = THUNDERBORG_ID then InitResult.ok else InitResult.panicked

/-- A write-transport behaviour: whether a given outgoing frame is
written successfully. -/
def WriteBehaviour : Type := List Byte → Bool

/-- Failure of a raw bus write (the `i2cdev` error is opaque to the driver). -/
inductive IoError
  | writeFailed
deriving DecidableEq

/-- `Controller::command`: build the frame `opcode :: data` and write it
once.  The second component records the frames whose write was attempted. -/
def Controller.command (cmd : Command) (data : List Byte) (wb : WriteBehaviour) :
    Except IoError Unit × List (List Byte) :=
  let command_bytes := cmd.to_wire :: data
  (if wb command_bytes then Except.ok () else Except.error IoError.writeFailed,
   [command_bytes])

/-- `Controller::stop`: `command(AllOff, &[0])`. -/
def Controller.stop (wb : WriteBehaviour) : Except IoError Unit × List (List Byte) :=
  Controller.command Command.AllOff [0] wb

/-- `impl Drop for Controller`: call `stop()` once; if it fails, log and
swallow the error (both branches return unit — nothing propagates). -/
def Controller.drop (wb : WriteBehaviour) : Unit × List (List Byte) :=
  let result := Controller.stop wb
  match result.1 with
  | Except.error _ => ((), result.2)
  | Except.ok _ => ((), result.2)

/-- The `f32` values relevant to the driver: NaN, the infinities, and
finite values as exact rationals (the two IEEE zeros are identified;
see the header comment). -/
inductive F32
  | nan
  | inf
  | neginf
  | fin (q : ℚ)
deriving DecidableEq

/-- IEEE `<` on `f32`: any comparison involving NaN is false. -/
def F32.lt : F32 → F32 → Bool
  | F32.fin a, F32.fin b => decide (a < b)
  | F32.fin _, F32.inf => true
  | F32.neginf, F32.fin _ => true
  | F32.neginf, F32.inf => true
  | _, _ => false

/-- IEEE `<=` on `f32`: any comparison involving NaN is false. -/
def F32.le : F32 → F32 → Bool
  | F32.fin a, F32.fin b => decide (a ≤ b)
  | F32.fin _, F32.inf => true
  | F32.neginf, F32.fin _ => true
  | F32.neginf, F32.inf => true
  | F32.neginf, F32.neginf => true
  | F32.inf, F32.inf => true
  | _, _ => false

/-- IEEE `==` on `f32`: NaN is not equal to anything, itself included. -/
def F32.beq : F32 → F32 → Bool
  | F32.fin a, F32.fin b => decide (a = b)
  | F32.inf, F32.inf => true
  | F32.neginf, F32.neginf => true
  | _, _ => false

/-- IEEE negation on `f32`. -/
def F32.neg : F32 → F32
  | F32.nan => F32.nan
  | F32.inf => F32.neginf
  | F32.neginf => F32.inf
  | F32.fin q => F32.fin (-q)

/-- IEEE `abs` on `f32` (clears the sign bit). -/
def F32.abs : F32 → F32
  | F32.nan => F32.nan
  | F32.inf => F32.inf
  | F32.neginf => F32.inf
  | F32.fin q => F32.fin (if q < 0 then -q else q)

/-- `f32` multiplication, idealized as exact on finite values. -/
def F32.mul : F32 → F32 → F32
  | F32.nan, _ => F32.nan
  | _, F32.nan => F32.nan
  | F32.fin a, F32.fin b => F32.fin (a * b)
  | F32.inf, F32.fin b =>
    if b = 0 then F32.nan else if 0 < b then F32.inf else F32.neginf
  | F32.fin a, F32.inf =>
    if a = 0 then F32.nan else if 0 < a then F32.inf else F32.neginf
  | F32.inf, F32.inf => F32.inf
  | F32.inf, F32.neginf => F32.neginf
  | F32.neginf, F32.inf => F32.neginf
  | F32.neginf, F32.neginf => F32.inf
  | F32.neginf, F32.fin b =>
    if b = 0 then F32.nan else if 0 < b then F32.neginf else F32.inf
  | F32.fin a, F32.neginf =>
    if a = 0 then F32.nan else if 0 < a then F32.neginf else F32.inf

/-- Rust's saturating `as u8` cast from `f32`: truncation toward zero,
negatives and NaN give 0, values at or above 255 give 255. -/
def f32_as_u8 : F32 → Byte
  | F32.nan => 0
  | F32.neginf => 0
  | F32.inf => 255
  | F32.fin q => ⟨min 255 ⌊q⌋.toNat, by omega⟩

/-- `clamp_motor_power`: `if value > 1.0 { 1.0 } else if value < -1.0
{ -1.0 } else { value }` (NaN falls through both tests and is returned
unchanged). -/
def clamp_motor_power (value : F32) : F32 :=
  if F32.lt (F32.fin 1) value then F32.fin 1
  else if F32.lt value (F32.fin (-1)) then F32.fin (-1)
  else value

/-- `motor_power_to_byte`: `assert!(-1.0 <= value && value <= 1.0)` then
`(value.abs() * 255.0) as u8`.  A failed assertion aborts the process,
modelled as `none`. -/
def motor_power_to_byte (value : F32) : Option Byte :=
  if F32.le (F32.fin (-1)) value && F32.le value (F32.fin 1) then
    some (f32_as_u8 (F32.mul (F32.abs value) (F32.fin 255)))
  else
    none

/-- `Controller::motor_command`: clamp the power, convert it to a
magnitude byte (aborting if the assertion fails), then write one frame
`[opcode, magnitude]`, choosing the reverse opcode when the clamped
power is `< 0.0`.  The result is the frame written, or `none` on abort. -/
def Controller.motor_command (forward_command reverse_command : Command)
    (power : F32) : Option (List Byte) :=
  let clamped := clamp_motor_power power
  match motor_power_to_byte clamped with
  | none => none
  | some b =>
    if F32.lt clamped (F32.fin 0) then some [reverse_command.to_wire, b]
    else some [forward_command.to_wire, b]

/-- `Controller::set_motors`. -/
def Controller.set_motors (power : F32) : Option (List Byte) :=
  Controller.motor_command Command.SetMotorsForward Command.SetMotorsReverse power

/-- `Controller::set_motor_a`. -/
def Controller.set_motor_a (power : F32) : Option (List Byte) :=
  Controller.motor_command Command.SetMotorAForward Command.SetMotorAReverse power

/-- `Controller::set_motor_b`. -/
def Controller.set_motor_b (power : F32) : Option (List Byte) :=
  Controller.motor_command Command.SetMotorBForward Command.SetMotorBReverse power

/-- A transport that never echoes the expected opcode (byte 0 is always 0,
which is no command's opcode). -/
def t_never : Transport := fun _ => ⟨0, 0, 0, 0, 0, 0⟩

/-- A transport that echoes a wrong opcode on the first two reads and the
correct `GetId` opcode on the third. -/
def t_third : Transport := fun k =>
  if k < 2 then ⟨0, 0, 0, 0, 0, 0⟩ else ⟨0x99, 0x15, 0, 0, 0, 0⟩

/-- A simulated device whose `GetId` exchange succeeds but reports
identifier 0x00 instead of 0x15. -/
def t_bad_id : Transport := fun _ => ⟨0x99, 0x00, 0, 0, 0, 0⟩

/-- A battery-voltage device: correct echo 0x15 and payload bytes
`[0x03, 0xFF]` (raw = 1023). -/
def t_battery : Transport := fun _ => ⟨0x15, 0x03, 0xFF, 0, 0, 0⟩

/-- A fault-flag device reporting the OFF sentinel 0x00. -/
def t_fault_off : Transport := fun _ => ⟨0x0F, 0x00, 0, 0, 0, 0⟩

/-- A fault-flag device reporting the non-zero value 0x01. -/
def t_fault_on : Transport := fun _ => ⟨0x0F, 0x01, 0, 0, 0, 0⟩

/-- Helper: for every non-NaN power, the clamped value lies in `[-1, 1]`
under IEEE `<=`. -/
lemma clamp_motor_power_range (p : F32) (h : p ≠ F32.nan) :
    F32.le (F32.fin (-1)) (clamp_motor_power p) = true ∧
    F32.le (clamp_motor_power p) (F32.fin 1) = true := by
  cases p with
  | nan => exact absurd rfl h
  | inf => decide
  | neginf => decide
  | fin q =>
    by_cases hq1 : (1 : ℚ) < q
    · norm_num [clamp_motor_power, F32.lt, F32.le, hq1]
    · by_cases hq2 : q < (-1 : ℚ)
      · norm_num [clamp_motor_power, F32.lt, F32.le, hq1, hq2]
      · simp only [clamp_motor_power, F32.lt, F32.le, hq1, hq2, decide_False,
          Bool.false_eq_true, if_false, decide_eq_true_eq]
        constructor <;> linarith

/-- Helper: clamping is structurally idempotent (this also holds at NaN). -/
lemma clamp_motor_power_idem (p : F32) :
    clamp_motor_power (clamp_motor_power p) = clamp_motor_power p := by
  cases p with
  | nan => decide
  | inf => decide
  | neginf => decide
  | fin q =>
    by_cases hq1 : (1 : ℚ) < q
    · norm_num [clamp_motor_power, F32.lt, hq1]
    · by_cases hq2 : q < (-1 : ℚ)
      · norm_num [clamp_motor_power, F32.lt, hq1, hq2]
      · simp [clamp_motor_power, F32.lt, hq1, hq2]

/-- Helper: the value of `Controller::motor_command` on non-NaN powers. -/
lemma motor_command_eq (fwd rev : Command) (p : F32) (h : p ≠ F32.nan) :
    Controller.motor_command fwd rev p = some
      [(if F32.lt (clamp_motor_power p) (F32.fin 0) then rev else fwd).to_wire,
       f32_as_u8 (F32.mul (F32.abs (clamp_motor_power p)) (F32.fin 255))] := by
  obtain ⟨h1, h2⟩ := clamp_motor_power_range p h
  simp only [Controller.motor_command, motor_power_to_byte, h1, h2, Bool.and_self,
    if_true]
  split_ifs <;> rfl

/-- Helper: IEEE `abs` is unchanged by negation. -/
lemma f32_abs_neg (p : F32) : F32.abs (F32.neg p) = F32.abs p := by
  cases p with
  | nan => rfl
  | inf => rfl
  | neginf => rfl
  | fin q =>
    simp only [F32.neg, F32.abs]
    rcases lt_trichotomy q 0 with h | h | h
    · rw [if_neg (by linarith), if_pos h]
    · subst h
      norm_num
    · rw [if_pos (by linarith), if_neg (by linarith), neg_neg]

/-- Helper: for frame bytes (< 256), bitwise-or of the shifted high byte
with the low byte agrees with addition. -/
lemma byte_lor_eq_add (f : Frame) :
    (f.b1.val <<< 8) ||| f.b2.val = (f.b1.val <<< 8) + f.b2.val := by
  have hb : f.b2.val < 2 ^ 8 := f.b2.isLt
  rw [Nat.shiftLeft_eq, Nat.mul_comm]
  exact (Nat.mul_add_lt_is_or hb _).symm

/-- Helper: the value of `get_battery_voltage` on an accepted frame,
with the raw value written in the `(high << 8) | low` form. -/
lemma get_battery_voltage_formula (t : Transport) (f : Frame)
    (hf : (Controller.command_with_response Command.GetBatteryVoltage t).1 =
      Except.ok f) :
    Controller.get_battery_voltage t = Except.ok
      ((((f.b1.val <<< 8) ||| f.b2.val : ℕ) : ℚ) / 1023 * (36.3 : ℚ) + 0) := by
  simp only [Controller.get_battery_voltage]
  rw [hf, byte_lor_eq_add f]
  rfl

/-- C5: the opcode map over the closed 15-variant command set is injective
and equals the published table exactly (SetLed=0x01 … GetId=0x99). -/
theorem command_to_wire_injective_and_table :
    (∀ a b : Command, a.to_wire = b.to_wire → a = b) ∧
    Command.SetLed.to_wire = 0x01 ∧
    Command.GetLed.to_wire = 0x02 ∧
    Command.SetMotorAForward.to_wire = 0x08 ∧
    Command.SetMotorAReverse.to_wire = 0x09 ∧
    Command.GetMotorA.to_wire = 0x0A ∧
    Command.SetMotorBForward.to_wire = 0x0B ∧
    Command.SetMotorBReverse.to_wire = 0x0C ∧
    Command.GetMotorB.to_wire = 0x0D ∧
    Command.AllOff.to_wire = 0x0E ∧
    Command.GetDriveFaultFlagA.to_wire = 0x0F ∧
    Command.GetDriveFaultFlagB.to_wire = 0x10 ∧
    Command.SetMotorsForward.to_wire = 0x11 ∧
    Command.SetMotorsReverse.to_wire = 0x12 ∧
    Command.GetBatteryVoltage.to_wire = 0x15 ∧
    Command.GetId.to_wire = 0x99 := by
  decide

/-- Witness for C5: the injectivity implication applied at a concrete pair. -/
theorem command_to_wire_injective_witness : Command.SetLed = Command.SetLed :=
  command_to_wire_injective_and_table.1 Command.SetLed Command.SetLed rfl

/-- C1: for every command and every transport behaviour, the exchange
returns the read frame as soon as its byte 0 echoes the opcode (having
performed first-match-index + 1 write/read cycles), and when no echo of
the 3 attempts matches it performs exactly 3 write/read cycles and fails
with the echo-mismatch error carrying the command. -/
theorem command_with_response_spec (cmd : Command) (t : Transport) :
    ((∀ k, k < I2C_COMMAND_NUM_ATTEMPTS → (t k).b0 ≠ cmd.to_wire) →
      Controller.command_with_response cmd t =
        (Except.error (ControllerError.CommandError cmd),
         I2C_COMMAND_NUM_ATTEMPTS)) ∧
    (∀ j, j < I2C_COMMAND_NUM_ATTEMPTS → (∀ k, k < j → (t k).b0 ≠ cmd.to_wire) →
      (t j).b0 = cmd.to_wire →
      Controller.command_with_response cmd t = (Except.ok (t j), j + 1)) := by
  constructor
  · intro h
    have h0 := h 0 (by decide)
    have h1 := h 1 (by decide)
    have h2 := h 2 (by decide)
    simp [Controller.command_with_response, I2C_COMMAND_NUM_ATTEMPTS,
      Controller.command_with_response_go, h0, h1, h2]
  · intro j hj hprev hmatch
    simp only [I2C_COMMAND_NUM_ATTEMPTS] at hj
    interval_cases j
    · simp [Controller.command_with_response, I2C_COMMAND_NUM_ATTEMPTS,
        Controller.command_with_response_go, hmatch]
    · have h0 := hprev 0 (by decide)
      simp [Controller.command_with_response, I2C_COMMAND_NUM_ATTEMPTS,
        Controller.command_with_response_go, h0, hmatch]
    · have h0 := hprev 0 (by decide)
      have h1 := hprev 1 (by decide)
      simp [Controller.command_with_response, I2C_COMMAND_NUM_ATTEMPTS,
        Controller.command_with_response_go, h0, h1, hmatch]

/-- Witness for C1: against a transport that never echoes, the exchange
fails after exactly 3 cycles; against one that echoes wrongly twice and
correctly on the third read, it succeeds after exactly 3 cycles. -/
theorem command_with_response_spec_witness :
    Controller.command_with_response Command.GetId t_never =
      (Except.error (ControllerError.CommandError Command.GetId), 3) ∧
    Controller.command_with_response Command.GetId t_third =
      (Except.ok (t_third 2), 3) :=
  ⟨(command_with_response_spec Command.GetId t_never).1 (by decide),
   (command_with_response_spec Command.GetId t_third).2 2 (by decide)
     (by decide) (by decide)⟩

/-- C2 counterexample: a simulated device whose `GetId` payload byte is
0x00 makes `Controller::new` abort the process (`panic!`); no typed
error value is produced, contrary to the claim. -/
theorem new_bad_id_panics :
    Controller.new t_bad_id = InitResult.panicked ∧
    (Controller.new t_bad_id).isTypedErr = false := by
  decide

/-- C2 amended: for every simulated device whose `GetId` response payload
byte differs from 0x15, initialization does not yield a usable
Controller — but it aborts the process (`panic!`) rather than returning
a typed error. -/
theorem new_unexpected_id_no_controller (t : Transport) (f : Frame)
    (hok : (Controller.command_with_response Command.GetId t).1 = Except.ok f)
    (hid : f.b1 ≠ THUNDERBORG_ID) :
    Controller.new t = InitResult.panicked := by
  unfold Controller.new
  rw [hok]
  simp [hid]

/-- Witness for the amended C2 at the concrete bad-id device. -/
theorem new_unexpected_id_no_controller_witness :
    Controller.new t_bad_id = InitResult.panicked :=
  new_unexpected_id_no_controller t_bad_id ⟨0x99, 0x00, 0, 0, 0, 0⟩
    rfl (by decide)

/-- C3: for every write behaviour (succeeding or failing), destroying the
controller performs exactly one write, of the AllOff frame `[0x0E, 0x00]`,
via `stop()`, and returns unit — a failing write is swallowed, never
propagated. -/
theorem drop_writes_one_all_off (wb : WriteBehaviour) :
    Controller.drop wb = ((), [[Command.AllOff.to_wire, 0]]) ∧
    Command.AllOff.to_wire = 0x0E := by
  refine ⟨?_, by decide⟩
  unfold Controller.drop Controller.stop Controller.command
  cases h : wb [Command.AllOff.to_wire, 0] <;> simp [h]

/-- C4 counterexample: at the f32 input NaN, `set_motors` does not write
any frame — the `assert!` in `motor_power_to_byte` fails and the process
aborts. -/
theorem set_motors_nan_panics : Controller.set_motors F32.nan = none := by
  decide

/-- C4 amended: for every non-NaN f32 power, each motor operation clamps
the power, truncates `|clamped| * 255` to the magnitude byte, selects the
Reverse variant exactly when the clamped power is `< 0.0` (zero selects
Forward), and writes the single frame `[opcode, magnitude]`. -/
theorem motor_operations_frame (p : F32) (h : p ≠ F32.nan) :
    Controller.set_motors p = some
      [(if F32.lt (clamp_motor_power p) (F32.fin 0) then Command.SetMotorsReverse
        else Command.SetMotorsForward).to_wire,
       f32_as_u8 (F32.mul (F32.abs (clamp_motor_power p)) (F32.fin 255))] ∧
    Controller.set_motor_a p = some
      [(if F32.lt (clamp_motor_power p) (F32.fin 0) then Command.SetMotorAReverse
        else Command.SetMotorAForward).to_wire,
       f32_as_u8 (F32.mul (F32.abs (clamp_motor_power p)) (F32.fin 255))] ∧
    Controller.set_motor_b p = some
      [(if F32.lt (clamp_motor_power p) (F32.fin 0) then Command.SetMotorBReverse
        else Command.SetMotorBForward).to_wire,
       f32_as_u8 (F32.mul (F32.abs (clamp_motor_power p)) (F32.fin 255))] ∧
    F32.lt (clamp_motor_power (F32.fin 0)) (F32.fin 0) = false :=
  ⟨motor_command_eq Command.SetMotorsForward Command.SetMotorsReverse p h,
   motor_command_eq Command.SetMotorAForward Command.SetMotorAReverse p h,
   motor_command_eq Command.SetMotorBForward Command.SetMotorBReverse p h,
   by decide⟩

/-- Witness for the amended C4 at power 1.0 (full forward). -/
theorem motor_operations_frame_witness :
    Controller.set_motors (F32.fin 1) = some
      [(if F32.lt (clamp_motor_power (F32.fin 1)) (F32.fin 0) then
          Command.SetMotorsReverse
        else Command.SetMotorsForward).to_wire,
       f32_as_u8 (F32.mul (F32.abs (clamp_motor_power (F32.fin 1)))
         (F32.fin 255))] ∧
    Controller.set_motor_a (F32.fin 1) = some
      [(if F32.lt (clamp_motor_power (F32.fin 1)) (F32.fin 0) then
          Command.SetMotorAReverse
        else Command.SetMotorAForward).to_wire,
       f32_as_u8 (F32.mul (F32.abs (clamp_motor_power (F32.fin 1)))
         (F32.fin 255))] ∧
    Controller.set_motor_b (F32.fin 1) = some
      [(if F32.lt (clamp_motor_power (F32.fin 1)) (F32.fin 0) then
          Command.SetMotorBReverse
        else Command.SetMotorBForward).to_wire,
       f32_as_u8 (F32.mul (F32.abs (clamp_motor_power (F32.fin 1)))
         (F32.fin 255))] ∧
    F32.lt (clamp_motor_power (F32.fin 0)) (F32.fin 0) = false :=
  motor_operations_frame (F32.fin 1) (by decide)

/-- C6: `get_battery_voltage` reconstructs the 16-bit raw value as
`(payload[0] << 8) | payload[1]` and returns `raw / 1023 * 36.3 + 0.0`;
for payload bytes `[0x03, 0xFF]` it returns exactly 36.3 volts. -/
theorem get_battery_voltage_spec :
    (∀ (t : Transport) (f : Frame),
      (Controller.command_with_response Command.GetBatteryVoltage t).1 =
        Except.ok f →
      Controller.get_battery_voltage t = Except.ok
        ((((f.b1.val <<< 8) ||| f.b2.val : ℕ) : ℚ) / 1023 * (36.3 : ℚ) + 0)) ∧
    Controller.get_battery_voltage t_battery = Except.ok (36.3 : ℚ) := by
  refine ⟨fun t f hf => get_battery_voltage_formula t f hf, ?_⟩
  have h := get_battery_voltage_formula t_battery ⟨0x15, 0x03, 0xFF, 0, 0, 0⟩ rfl
  have hval : ((⟨0x15, 0x03, 0xFF, 0, 0, 0⟩ : Frame).b1.val <<< 8) +
      (⟨0x15, 0x03, 0xFF, 0, 0, 0⟩ : Frame).b2.val = 1023 := by decide
  rw [h, byte_lor_eq_add ⟨0x15, 0x03, 0xFF, 0, 0, 0⟩, hval]
  norm_num

/-- Witness for C6: the general reconstruction formula applied at the
concrete battery device. -/
theorem get_battery_voltage_spec_witness :
    Controller.get_battery_voltage t_battery = Except.ok
      (((((⟨0x15, 0x03, 0xFF, 0, 0, 0⟩ : Frame).b1.val <<< 8) |||
        (⟨0x15, 0x03, 0xFF, 0, 0, 0⟩ : Frame).b2.val : ℕ) : ℚ) /
        1023 * (36.3 : ℚ) + 0) :=
  get_battery_voltage_spec.1 t_battery ⟨0x15, 0x03, 0xFF, 0, 0, 0⟩ rfl

/-- C7 counterexample: at NaN (an f32 power value), the clamped value is
NaN, which lies outside `[-1, 1]` and fails IEEE `==` idempotence. -/
theorem clamp_nan_outside_range :
    F32.le (F32.fin (-1)) (clamp_motor_power F32.nan) = false ∧
    F32.beq (clamp_motor_power (clamp_motor_power F32.nan))
      (clamp_motor_power F32.nan) = false := by
  decide

/-- C7 amended: for every non-NaN f32 power p, `clamp(p)` lies in
`[-1, 1]` and clamping is idempotent (also under IEEE `==`). -/
theorem clamp_range_and_idem (p : F32) (h : p ≠ F32.nan) :
    F32.le (F32.fin (-1)) (clamp_motor_power p) = true ∧
    F32.le (clamp_motor_power p) (F32.fin 1) = true ∧
    F32.beq (clamp_motor_power (clamp_motor_power p))
      (clamp_motor_power p) = true := by
  obtain ⟨h1, h2⟩ := clamp_motor_power_range p h
  refine ⟨h1, h2, ?_⟩
  rw [clamp_motor_power_idem p]
  cases hc : clamp_motor_power p with
  | nan =>
    rw [hc] at h1
    simp [F32.le] at h1
  | inf => decide
  | neginf => decide
  | fin q => simp [F32.beq]

/-- Witness for the amended C7 at the out-of-range power 2.0. -/
theorem clamp_range_and_idem_witness :
    F32.le (F32.fin (-1)) (clamp_motor_power (F32.fin 2)) = true ∧
    F32.le (clamp_motor_power (F32.fin 2)) (F32.fin 1) = true ∧
    F32.beq (clamp_motor_power (clamp_motor_power (F32.fin 2)))
      (clamp_motor_power (F32.fin 2)) = true :=
  clamp_range_and_idem (F32.fin 2) (by decide)

/-- C8: for every f32 power in `[-1, 1]`, the magnitude-byte conversion
is sign-symmetric, and it attains `255` at `1.0` and `0` at `0.0`. -/
theorem magnitude_byte_symmetric_and_endpoints :
    (∀ p : F32, F32.le (F32.fin (-1)) p = true → F32.le p (F32.fin 1) = true →
      motor_power_to_byte p = motor_power_to_byte (F32.neg p)) ∧
    motor_power_to_byte (F32.fin 1) = some 255 ∧
    motor_power_to_byte (F32.fin 0) = some 0 := by
  refine ⟨?_, ?_, ?_⟩
  · intro p h1 h2
    cases p with
    | nan => simp [F32.le] at h1
    | inf => simp [F32.le] at h2
    | neginf => simp [F32.le] at h1
    | fin q =>
      have hq1 : (-1 : ℚ) ≤ q := by simpa [F32.le] using h1
      have hq2 : q ≤ (1 : ℚ) := by simpa [F32.le] using h2
      have hq1' : (-1 : ℚ) ≤ -q := by linarith
      have hq2' : (-q : ℚ) ≤ 1 := by linarith
      have habs := f32_abs_neg (F32.fin q)
      unfold motor_power_to_byte
      rw [habs]
      simp [F32.neg, F32.le, hq1, hq2, hq1', hq2']
  · unfold motor_power_to_byte
    norm_num [F32.le, F32.abs, F32.mul, f32_as_u8]
    try rfl
  · unfold motor_power_to_byte
    norm_num [F32.le, F32.abs, F32.mul, f32_as_u8]
    try rfl

/-- Witness for C8 sign symmetry at power 0.5. -/
theorem magnitude_byte_symmetric_witness :
    motor_power_to_byte (F32.fin 1) =
      motor_power_to_byte (F32.neg (F32.fin 1)) :=
  magnitude_byte_symmetric_and_endpoints.1 (F32.fin 1)
    (by decide) (by decide)

/-- C9: for every response frame accepted by the exchange, the fault
getters return precisely `payload byte ≠ I2C_VALUE_OFF` (so 0x00 gives
false and any non-zero byte gives true). -/
theorem drive_fault_iff_nonzero (t : Transport) (f : Frame) :
    ((Controller.command_with_response Command.GetDriveFaultFlagA t).1 =
        Except.ok f →
      Controller.get_drive_fault_a t =
        Except.ok (decide (f.b1 ≠ I2C_VALUE_OFF))) ∧
    ((Controller.command_with_response Command.GetDriveFaultFlagB t).1 =
        Except.ok f →
      Controller.get_drive_fault_b t =
        Except.ok (decide (f.b1 ≠ I2C_VALUE_OFF))) := by
  constructor
  · intro hf
    unfold Controller.get_drive_fault_a
    rw [hf]
  · intro hf
    unfold Controller.get_drive_fault_b
    rw [hf]


/-- Witness for C9: payload 0x00 yields false, payload 0x01 yields true. -/
theorem drive_fault_iff_nonzero_witness :
    Controller.get_drive_fault_a t_fault_off = Except.ok false ∧
    Controller.get_drive_fault_a t_fault_on = Except.ok true :=
  ⟨(drive_fault_iff_nonzero t_fault_off ⟨0x0F, 0x00, 0, 0, 0, 0⟩).1 rfl,
   (drive_fault_iff_nonzero t_fault_on ⟨0x0F, 0x01, 0, 0, 0, 0⟩).1 rfl⟩

/-- C10 counterexample: at the f32 input NaN, the value produced by
`clamp_motor_power` fails the assertion at the head of
`motor_power_to_byte`, so the motor operations can reach the
assertion-failure (panic) branch. -/
theorem clamp_nan_fails_assertion :
    motor_power_to_byte (clamp_motor_power F32.nan) = none := by
  decide

/-- C10 amended: for every non-NaN f32 power, the value produced by
`clamp_motor_power` satisfies the assertion `-1.0 <= v && v <= 1.0` at
the head of `motor_power_to_byte`, so the panic branch is unreachable
from the typed motor operations on non-NaN inputs. -/
theorem clamp_satisfies_assertion (p : F32) (h : p ≠ F32.nan) :
    (F32.le (F32.fin (-1)) (clamp_motor_power p) &&
      F32.le (clamp_motor_power p) (F32.fin 1)) = true ∧
    motor_power_to_byte (clamp_motor_power p) ≠ none := by
  obtain ⟨h1, h2⟩ := clamp_motor_power_range p h
  refine ⟨by simp [h1, h2], ?_⟩
  unfold motor_power_to_byte
  rw [h1, h2]
  simp

/-- Witness for the amended C10 at the out-of-range power 5.0. -/
theorem clamp_satisfies_assertion_witness :
    (F32.le (F32.fin (-1)) (clamp_motor_power (F32.fin 5)) &&
      F32.le (clamp_motor_power (F32.fin 5)) (F32.fin 1)) = true ∧
    motor_power_to_byte (clamp_motor_power (F32.fin 5)) ≠ none :=
  clamp_satisfies_assertion (F32.fin 5) (by decide)

end Vrum
